import Mathlib

/-!
Verification of the FlexIO center-aligned PWM demo
(`source/frdmmcxn947_flexio_state_mode_center_aligned_pwm.c`).

The C routines are shallowly embedded as Lean functions over an explicit
system state.  Machine integers are modelled as `ℕ` with an explicit
`% 2^32` (resp. `% 2^16`, `% 2^8`) wherever the C `uint32_t`/`uint16_t`/
`uint8_t` arithmetic can wrap.  The fallible routine `flexio_pwm_init`
returns `Option` (`none` models the fatal `assert`) together with a
`status_t` and the list of hardware writes it performs, in order.
-/

/-- Modulus of C `uint32_t` arithmetic. -/
def UINT32_MOD : ℕ := 4294967296

/-- Modulus of the 16-bit `TIMCMP` compare field. -/
def UINT16_MOD : ℕ := 65536

/-- `flexio_timer_trigger_polarity_t` from the vendor SDK. -/
inductive flexio_timer_trigger_polarity_t
  | kFLEXIO_TimerTriggerPolarityActiveHigh
  | kFLEXIO_TimerTriggerPolarityActiveLow
  deriving DecidableEq

/-- `flexio_timer_trigger_source_t` from the vendor SDK. -/
inductive flexio_timer_trigger_source_t
  | kFLEXIO_TimerTriggerSourceExternal
  | kFLEXIO_TimerTriggerSourceInternal
  deriving DecidableEq

/-- `flexio_pin_config_t` from the vendor SDK. -/
inductive flexio_pin_config_t
  | kFLEXIO_PinConfigOutputDisabled
  | kFLEXIO_PinConfigOpenDrainOrBidirection
  | kFLEXIO_PinConfigBidirectionOutputData
  | kFLEXIO_PinConfigOutput
  deriving DecidableEq

/-- `flexio_pin_polarity_t` from the vendor SDK. -/
inductive flexio_pin_polarity_t
  | kFLEXIO_PinActiveHigh
  | kFLEXIO_PinActiveLow
  deriving DecidableEq

/-- `flexio_timer_mode_t` from the vendor SDK. -/
inductive flexio_timer_mode_t
  | kFLEXIO_TimerModeDisabled
  | kFLEXIO_TimerModeDual8BitBaudBit
  | kFLEXIO_TimerModeDual8BitPWM
  | kFLEXIO_TimerModeSingle16Bit
  deriving DecidableEq

/-- `flexio_timer_output_t` from the vendor SDK. -/
inductive flexio_timer_output_t
  | kFLEXIO_TimerOutputOneNotAffectedByReset
  | kFLEXIO_TimerOutputZeroNotAffectedByReset
  | kFLEXIO_TimerOutputOneAffectedByReset
  | kFLEXIO_TimerOutputZeroAffectedByReset
  deriving DecidableEq

/-- `flexio_timer_decrement_source_t` from the vendor SDK. -/
inductive flexio_timer_decrement_source_t
  | kFLEXIO_TimerDecSrcOnFlexIOClockShiftTimerOutput
  | kFLEXIO_TimerDecSrcOnTriggerInputShiftTimerOutput
  | kFLEXIO_TimerDecSrcOnPinInputShiftPinInput
  | kFLEXIO_TimerDecSrcOnTriggerInputShiftTriggerInput
  deriving DecidableEq

/-- `flexio_timer_reset_t` from the vendor SDK. -/
inductive flexio_timer_reset_t
  | kFLEXIO_TimerResetNever
  | kFLEXIO_TimerResetOnTimerPinEqualToTimerOutput
  | kFLEXIO_TimerResetOnTimerTriggerEqualToTimerOutput
  deriving DecidableEq

/-- `flexio_timer_disable_t` from the vendor SDK. -/
inductive flexio_timer_disable_t
  | kFLEXIO_TimerDisableNever
  | kFLEXIO_TimerDisableOnTimerCompare
  | kFLEXIO_TimerDisableOnTimerTriggerFallingEdge
  deriving DecidableEq

/-- `flexio_timer_enable_t` from the vendor SDK. -/
inductive flexio_timer_enable_t
  | kFLEXIO_TimerEnabledAlways
  | kFLEXIO_TimerEnableOnTriggerHigh
  | kFLEXIO_TimerEnableOnTriggerRisingEdge
  deriving DecidableEq

/-- `flexio_timer_start_t` from the vendor SDK. -/
inductive flexio_timer_start_t
  | kFLEXIO_TimerStartBitDisabled
  | kFLEXIO_TimerStartBitEnabled
  deriving DecidableEq

/-- `flexio_timer_stop_t` from the vendor SDK. -/
inductive flexio_timer_stop_t
  | kFLEXIO_TimerStopBitDisabled
  | kFLEXIO_TimerStopBitEnableOnTimerCompare
  | kFLEXIO_TimerStopBitEnableOnTimerDisable
  deriving DecidableEq

/-- `status_t` result codes used by the demo. -/
inductive status_t
  | kStatus_Success
  | kStatus_Fail
  deriving DecidableEq

/-- Return values of `PWM_GetPwmOutputState`.  Modelled from the spec:
the enum `kFLEXIO_PwmHigh` / `kFLEXIO_PwmLow` is referenced by the demo but
its declaration is not among the provided sources; the spec calls the two
levels `High` and `Low`. -/
inductive flexio_pwm_output_state
  | kFLEXIO_PwmLow
  | kFLEXIO_PwmHigh
  deriving DecidableEq

/-- `flexio_timer_config_t` from the vendor SDK: one timer channel's
configuration value object. -/
structure flexio_timer_config_t where
  triggerSelect : ℕ
  triggerPolarity : flexio_timer_trigger_polarity_t
  triggerSource : flexio_timer_trigger_source_t
  pinConfig : flexio_pin_config_t
  pinSelect : ℕ
  pinPolarity : flexio_pin_polarity_t
  timerMode : flexio_timer_mode_t
  timerOutput : flexio_timer_output_t
  timerDecrement : flexio_timer_decrement_source_t
  timerReset : flexio_timer_reset_t
  timerDisable : flexio_timer_disable_t
  timerEnable : flexio_timer_enable_t
  timerStop : flexio_timer_stop_t
  timerStart : flexio_timer_start_t
  timerCompare : ℕ
  deriving DecidableEq

/-- The FlexIO peripheral registers used by the demo: the raw pin-state
input register `PIN`, the per-channel compare registers `TIMCMP`, and the
per-channel control/configuration registers (kept at the granularity of
the last configuration written to the channel). -/
@[ext] structure FLEXIO_Type where
  PIN : ℕ
  TIMCMP : ℕ → ℕ
  timerCfg : ℕ → flexio_timer_config_t

/-- Whole system state: the peripheral plus the process-wide duty-cycle
cache `s_flexioGetPwmDutyCycle` (a `uint8_t[FLEXIO_TIMER_CHANNELS]`). -/
@[ext] structure SysState where
  flexio : FLEXIO_Type
  s_flexioGetPwmDutyCycle : ℕ → ℕ

/-- `DEMO_FLEXIO_OUTPUTPIN`: FXIO_D0 is the PWM output pin. -/
def DEMO_FLEXIO_OUTPUTPIN : ℕ := 0

/-- `DEMO_FLEXIO_TIMER_CH`: FlexIO timer 0 is used. -/
def DEMO_FLEXIO_TIMER_CH : ℕ := 0

/-- `DEMO_FLEXIO_FREQUENCY`: the fixed demonstration PWM frequency. -/
def DEMO_FLEXIO_FREQUENCY : ℕ := 100000

/-- `FLEXIO_TIMER_CHANNELS`: number of FlexIO timer channels. -/
def FLEXIO_TIMER_CHANNELS : ℕ := 8

/-- `FLEXIO_TIMER_TRIGGER_SEL_SHIFTnSTAT(x) = ((x) << 2) | 0x1`, from the
vendor SDK header (not under the provided sources). -/
def FLEXIO_TIMER_TRIGGER_SEL_SHIFTnSTAT (n : ℕ) : ℕ := (n <<< 2) ||| 1

/-- `FLEXIO_TIMCTL_PINPOL_MASK`: the pin-polarity bit of a TIMCTL register
is bit 7, per the device header (not under the provided sources). -/
def FLEXIO_TIMCTL_PINPOL_MASK : ℕ := 128

/-- Numeric value of a trigger polarity, per the vendor SDK enum. -/
def flexio_timer_trigger_polarity_val : flexio_timer_trigger_polarity_t → ℕ
  | .kFLEXIO_TimerTriggerPolarityActiveHigh => 0
  | .kFLEXIO_TimerTriggerPolarityActiveLow => 1

/-- Numeric value of a trigger source, per the vendor SDK enum. -/
def flexio_timer_trigger_source_val : flexio_timer_trigger_source_t → ℕ
  | .kFLEXIO_TimerTriggerSourceExternal => 0
  | .kFLEXIO_TimerTriggerSourceInternal => 1

/-- Numeric value of a pin configuration, per the vendor SDK enum. -/
def flexio_pin_config_val : flexio_pin_config_t → ℕ
  | .kFLEXIO_PinConfigOutputDisabled => 0
  | .kFLEXIO_PinConfigOpenDrainOrBidirection => 1
  | .kFLEXIO_PinConfigBidirectionOutputData => 2
  | .kFLEXIO_PinConfigOutput => 3

/-- Numeric value of a pin polarity, per the vendor SDK enum
(`kFLEXIO_PinActiveHigh = 0`, `kFLEXIO_PinActiveLow = 1`). -/
def flexio_pin_polarity_val : flexio_pin_polarity_t → ℕ
  | .kFLEXIO_PinActiveHigh => 0
  | .kFLEXIO_PinActiveLow => 1

/-- Numeric value of a timer mode, per the vendor SDK enum. -/
def flexio_timer_mode_val : flexio_timer_mode_t → ℕ
  | .kFLEXIO_TimerModeDisabled => 0
  | .kFLEXIO_TimerModeDual8BitBaudBit => 1
  | .kFLEXIO_TimerModeDual8BitPWM => 2
  | .kFLEXIO_TimerModeSingle16Bit => 3

/-- The 32-bit TIMCTL register word written for a timer configuration.
Modelled from the vendor SDK driver `FLEXIO_SetTimerConfig` and the device
header field positions (TRGSEL at bit 24, TRGPOL at 23, TRGSRC at 22,
PINCFG at 16, PINSEL at 8, PINPOL at 7, TIMOD at 0); that code is not
under the provided sources. -/
def FLEXIO_TIMCTL_val (cfg : flexio_timer_config_t) : ℕ :=
  (cfg.triggerSelect <<< 24)
    ||| (flexio_timer_trigger_polarity_val cfg.triggerPolarity <<< 23)
    ||| (flexio_timer_trigger_source_val cfg.triggerSource <<< 22)
    ||| (flexio_pin_config_val cfg.pinConfig <<< 16)
    ||| (cfg.pinSelect <<< 8)
    ||| (flexio_pin_polarity_val cfg.pinPolarity <<< 7)
    ||| flexio_timer_mode_val cfg.timerMode

/-- `FLEXIO_SetTimerConfig`: writes one timer channel's configuration to
the hardware.  Modelled from the vendor SDK driver (not under the provided
sources): it stores the configuration in the channel's control registers
and the 16-bit compare field in `TIMCMP[index]`. -/
def FLEXIO_SetTimerConfig (base : FLEXIO_Type) (index : ℕ)
    (timerConfig : flexio_timer_config_t) : FLEXIO_Type :=
  { base with
    timerCfg := Function.update base.timerCfg index timerConfig
    TIMCMP := Function.update base.TIMCMP index (timerConfig.timerCompare % UINT16_MOD) }

/-- One hardware write performed by the demo code, in program order. -/
inductive WriteEvent
  | timcmpWrite (ch val : ℕ)
  | timerConfigWrite (ch : ℕ) (cfg : flexio_timer_config_t)
  deriving DecidableEq

/-- The channel a hardware write targets. -/
def writeEventChannel : WriteEvent → ℕ
  | .timcmpWrite ch _ => ch
  | .timerConfigWrite ch _ => ch

/-- `sum = (DEMO_FLEXIO_CLOCK_FREQUENCY * 2 / freq_Hz + 1) / 2` in
`uint32_t` arithmetic: the total period in clock cycles. -/
def flexio_pwm_sum (clockFreq freq_Hz : ℕ) : ℕ :=
  ((clockFreq * 2) % UINT32_MOD / freq_Hz + 1) / 2

/-- `lowerValue = (sum * duty) / 100` in `uint32_t` arithmetic: clock
cycles of high logic state in one period. -/
def flexio_pwm_lowerValue (clockFreq freq_Hz duty : ℕ) : ℕ :=
  flexio_pwm_sum clockFreq freq_Hz * duty % UINT32_MOD / 100

/-- `upperValue = sum - lowerValue - 2` in `uint32_t` arithmetic (may
wrap): clock cycles of low logic state in one period. -/
def flexio_pwm_upperValue (clockFreq freq_Hz duty : ℕ) : ℕ :=
  (flexio_pwm_sum clockFreq freq_Hz
    + (UINT32_MOD - flexio_pwm_lowerValue clockFreq freq_Hz duty)
    + (UINT32_MOD - 2)) % UINT32_MOD

/-- `timerCompare = (upperValue << 8) | lowerValue` in `uint32_t`
arithmetic. -/
def flexio_pwm_timerCompare (clockFreq freq_Hz duty : ℕ) : ℕ :=
  (flexio_pwm_upperValue clockFreq freq_Hz duty <<< 8) % UINT32_MOD
    ||| flexio_pwm_lowerValue clockFreq freq_Hz duty

/-- The straight-line tail of `flexio_pwm_init` after the duty-cycle
dispatch: `FLEXIO_SetTimerConfig(DEMO_FLEXIO_BASEADDR, DEMO_FLEXIO_TIMER_CH,
&fxioTimerConfig)`, the cache update, and `return kStatus_Success`. -/
def flexio_pwm_write (s : SysState) (duty : ℕ) (cfg : flexio_timer_config_t) :
    Option (status_t × SysState × List WriteEvent) :=
  some (status_t.kStatus_Success,
    { flexio := FLEXIO_SetTimerConfig s.flexio DEMO_FLEXIO_TIMER_CH cfg
      s_flexioGetPwmDutyCycle :=
        Function.update s.s_flexioGetPwmDutyCycle DEMO_FLEXIO_TIMER_CH (duty % 256) },
    [WriteEvent.timerConfigWrite DEMO_FLEXIO_TIMER_CH cfg])

/-- The `fxioTimerConfig` value as assembled by `flexio_pwm_init` before
the duty-dependent adjustment (source lines 88-113). -/
def flexio_pwm_init_base_config (clockFreq freq_Hz duty : ℕ) :
    flexio_timer_config_t :=
  { triggerSelect := FLEXIO_TIMER_TRIGGER_SEL_SHIFTnSTAT 0
    triggerSource := .kFLEXIO_TimerTriggerSourceInternal
    triggerPolarity := .kFLEXIO_TimerTriggerPolarityActiveLow
    pinConfig := .kFLEXIO_PinConfigOutput
    pinPolarity := .kFLEXIO_PinActiveHigh
    pinSelect := DEMO_FLEXIO_OUTPUTPIN
    timerMode := .kFLEXIO_TimerModeDisabled
    timerOutput := .kFLEXIO_TimerOutputOneNotAffectedByReset
    timerDecrement := .kFLEXIO_TimerDecSrcOnFlexIOClockShiftTimerOutput
    timerDisable := .kFLEXIO_TimerDisableNever
    timerEnable := .kFLEXIO_TimerEnabledAlways
    timerReset := .kFLEXIO_TimerResetNever
    timerStart := .kFLEXIO_TimerStartBitDisabled
    timerStop := .kFLEXIO_TimerStopBitDisabled
    timerCompare := flexio_pwm_timerCompare clockFreq freq_Hz duty }

/-- `flexio_pwm_init(freq_Hz, duty)`: the PWM configurator.  `clockFreq`
is the externally supplied peripheral clock frequency
(`DEMO_FLEXIO_CLOCK_FREQUENCY = CLOCK_GetFlexioClkFreq()`).  `none`
models the fatal `assert` on the frequency range. -/
def flexio_pwm_init (clockFreq freq_Hz duty : ℕ) (s : SysState) :
    Option (status_t × SysState × List WriteEvent) :=
  if freq_Hz < clockFreq / 2 ∧ clockFreq / 512 < freq_Hz then
    if 0 < duty ∧ duty < 100 then
      flexio_pwm_write s duty
        { flexio_pwm_init_base_config clockFreq freq_Hz duty with
            timerMode := .kFLEXIO_TimerModeDual8BitPWM }
    else if duty = 100 then
      flexio_pwm_write s duty
        { flexio_pwm_init_base_config clockFreq freq_Hz duty with
            pinPolarity := .kFLEXIO_PinActiveLow }
    else if duty = 0 then
      flexio_pwm_write s duty
        { flexio_pwm_init_base_config clockFreq freq_Hz duty with
            pinPolarity := .kFLEXIO_PinActiveHigh }
    else
      some (status_t.kStatus_Fail, s, [])
  else
    none

/-- The `fxioTimerConfig` value assembled by `FLEXIO_SetPwmOutputToIdle`
(source lines 150-180), including its idle-polarity branch. -/
def FLEXIO_SetPwmOutputToIdle_config (idleStatus : Bool) :
    flexio_timer_config_t :=
  { triggerSelect := FLEXIO_TIMER_TRIGGER_SEL_SHIFTnSTAT 0
    triggerSource := .kFLEXIO_TimerTriggerSourceInternal
    triggerPolarity := .kFLEXIO_TimerTriggerPolarityActiveLow
    pinConfig := .kFLEXIO_PinConfigOutput
    pinSelect := DEMO_FLEXIO_OUTPUTPIN
    timerMode := .kFLEXIO_TimerModeDisabled
    timerOutput := .kFLEXIO_TimerOutputOneNotAffectedByReset
    timerDecrement := .kFLEXIO_TimerDecSrcOnFlexIOClockShiftTimerOutput
    timerDisable := .kFLEXIO_TimerDisableNever
    timerEnable := .kFLEXIO_TimerEnabledAlways
    timerReset := .kFLEXIO_TimerResetNever
    timerStart := .kFLEXIO_TimerStartBitDisabled
    timerStop := .kFLEXIO_TimerStopBitDisabled
    timerCompare := 0
    pinPolarity :=
      if idleStatus then .kFLEXIO_PinActiveLow else .kFLEXIO_PinActiveHigh }

/-- `FLEXIO_SetPwmOutputToIdle(base, timerChannel, idleStatus)`: disables
the timer, clears `TIMCMP[timerChannel]` first, selects the idle polarity,
writes the configuration and resets the duty-cycle cache entry.  Returns
the new state and the hardware writes in program order. -/
def FLEXIO_SetPwmOutputToIdle (s : SysState) (timerChannel : ℕ)
    (idleStatus : Bool) : SysState × List WriteEvent :=
  ({ flexio :=
       FLEXIO_SetTimerConfig
         { s.flexio with
             TIMCMP := Function.update s.flexio.TIMCMP timerChannel 0 }
         timerChannel (FLEXIO_SetPwmOutputToIdle_config idleStatus)
     s_flexioGetPwmDutyCycle :=
       Function.update s.s_flexioGetPwmDutyCycle timerChannel 0 },
   [WriteEvent.timcmpWrite timerChannel 0,
    WriteEvent.timerConfigWrite timerChannel
      (FLEXIO_SetPwmOutputToIdle_config idleStatus)])

/-- `PWM_GetPwmOutputState(base, timerChannel, channel)`: the output state
prober.  It XORs the masked raw pin-state word against the masked TIMCTL
polarity word, exactly as the C expression does. -/
def PWM_GetPwmOutputState (base : FLEXIO_Type) (timerChannel channel : ℕ) :
    flexio_pwm_output_state :=
  if (base.PIN &&& (1 <<< channel))
      ^^^ (FLEXIO_TIMCTL_val (base.timerCfg timerChannel)
            &&& FLEXIO_TIMCTL_PINPOL_MASK) ≠ 0 then
    .kFLEXIO_PwmHigh
  else
    .kFLEXIO_PwmLow

/-- Reset configuration of a timer channel (all register fields zero). -/
def initTimerConfig : flexio_timer_config_t :=
  { triggerSelect := 0
    triggerPolarity := .kFLEXIO_TimerTriggerPolarityActiveHigh
    triggerSource := .kFLEXIO_TimerTriggerSourceExternal
    pinConfig := .kFLEXIO_PinConfigOutputDisabled
    pinSelect := 0
    pinPolarity := .kFLEXIO_PinActiveHigh
    timerMode := .kFLEXIO_TimerModeDisabled
    timerOutput := .kFLEXIO_TimerOutputOneNotAffectedByReset
    timerDecrement := .kFLEXIO_TimerDecSrcOnFlexIOClockShiftTimerOutput
    timerReset := .kFLEXIO_TimerResetNever
    timerDisable := .kFLEXIO_TimerDisableNever
    timerEnable := .kFLEXIO_TimerEnabledAlways
    timerStop := .kFLEXIO_TimerStopBitDisabled
    timerStart := .kFLEXIO_TimerStartBitDisabled
    timerCompare := 0 }

/-- Startup state: peripheral in reset, duty-cycle cache all zero
(`static uint8_t s_flexioGetPwmDutyCycle[FLEXIO_TIMER_CHANNELS] = {0}`). -/
def initState : SysState :=
  { flexio := { PIN := 0, TIMCMP := fun _ => 0, timerCfg := fun _ => initTimerConfig }
    s_flexioGetPwmDutyCycle := fun _ => 0 }

/-- Modelled from the spec: the board bring-up call
`BOARD_InitBootPeripherals()` (repository board glue not among the
provided sources) performs the one-time PWM configuration at the fixed
demonstration frequency `DEMO_FLEXIO_FREQUENCY` with an unspecified duty
value. -/
def BOARD_InitBootPeripherals (clockFreq duty : ℕ) (s : SysState) :
    Option SysState :=
  (flexio_pwm_init clockFreq DEMO_FLEXIO_FREQUENCY duty s).map (fun r => r.2.1)

/-- One iteration of `main`'s `while(1) { }` loop: the empty body changes
nothing and never exits. -/
def main_loop_step (s : SysState) : Option SysState := some s

/-- The state of the process after boot configuration and `n` iterations
of the idle loop in `main`; `none` would model a failed boot or an exit
from `main`. -/
def main_run (clockFreq duty : ℕ) (s : SysState) : ℕ → Option SysState
  | 0 => BOARD_InitBootPeripherals clockFreq duty s
  | n + 1 => (main_run clockFreq duty s n).bind main_loop_step

/-- The period formula as the spec states it: round-half-up quotient
`(clockFreq*2/frequencyHz + 1)/2` over the integers. -/
def specPeriod (clockFreq freq_Hz : ℕ) : ℕ := (clockFreq * 2 / freq_Hz + 1) / 2

/-- High cycles as the spec states them: `period * duty / 100` with
integer truncation. -/
def specHighCycles (clockFreq freq_Hz duty : ℕ) : ℕ :=
  specPeriod clockFreq freq_Hz * duty / 100

/-- Low cycles as the spec states them: `period - highCycles - 2`, as a
signed integer (the value the `uint32_t` subtraction wraps to). -/
def specLowCycles (clockFreq freq_Hz duty : ℕ) : ℤ :=
  (specPeriod clockFreq freq_Hz : ℤ) - specHighCycles clockFreq freq_Hz duty - 2

/-- The packed compare value as the spec states it:
`(lowCycles << 8) | highCycles` in 32-bit arithmetic. -/
def specCompare (clockFreq freq_Hz duty : ℕ) : ℕ :=
  ((specLowCycles clockFreq freq_Hz duty % (2 ^ 32 : ℤ)).toNat <<< 8) % UINT32_MOD
    ||| specHighCycles clockFreq freq_Hz duty

/-! ### Arithmetic facts about the compare-value computation -/

lemma freq_pos {clockFreq freq_Hz : ℕ} (hmin : clockFreq / 512 < freq_Hz) :
    0 < freq_Hz :=
  lt_of_le_of_lt (Nat.zero_le _) hmin

lemma specPeriod_le_512 {clockFreq freq_Hz : ℕ}
    (hmin : clockFreq / 512 < freq_Hz) : specPeriod clockFreq freq_Hz ≤ 512 := by
  have hf : 0 < freq_Hz := freq_pos hmin
  have h1 : clockFreq < freq_Hz * 512 :=
    (Nat.div_lt_iff_lt_mul (by norm_num)).mp hmin
  have h2 : clockFreq * 2 / freq_Hz < 1024 := by
    rw [Nat.div_lt_iff_lt_mul hf]
    omega
  unfold specPeriod
  omega

lemma flexio_pwm_sum_eq_specPeriod {clockFreq freq_Hz : ℕ}
    (hclk : clockFreq < 2 ^ 31) :
    flexio_pwm_sum clockFreq freq_Hz = specPeriod clockFreq freq_Hz := by
  have hc : clockFreq < 2147483648 := by simpa using hclk
  unfold flexio_pwm_sum specPeriod UINT32_MOD
  rw [Nat.mod_eq_of_lt (by omega)]

lemma specHighCycles_le {clockFreq freq_Hz duty : ℕ} (hd : duty ≤ 100)
    (hmin : clockFreq / 512 < freq_Hz) :
    specHighCycles clockFreq freq_Hz duty ≤ 51200 := by
  have hp := specPeriod_le_512 hmin
  have h1 : specPeriod clockFreq freq_Hz * duty ≤ 51200 := by
    calc specPeriod clockFreq freq_Hz * duty ≤ 512 * 100 :=
          Nat.mul_le_mul hp hd
      _ = 51200 := by norm_num
  calc specHighCycles clockFreq freq_Hz duty
      ≤ specPeriod clockFreq freq_Hz * duty := Nat.div_le_self _ _
    _ ≤ 51200 := h1

lemma flexio_pwm_lowerValue_eq {clockFreq freq_Hz duty : ℕ}
    (hmin : clockFreq / 512 < freq_Hz) (hclk : clockFreq < 2 ^ 31)
    (hd : duty ≤ 100) :
    flexio_pwm_lowerValue clockFreq freq_Hz duty
      = specHighCycles clockFreq freq_Hz duty := by
  unfold flexio_pwm_lowerValue
  rw [flexio_pwm_sum_eq_specPeriod hclk]
  have hp := specPeriod_le_512 hmin
  have h1 : specPeriod clockFreq freq_Hz * duty ≤ 51200 := by
    calc specPeriod clockFreq freq_Hz * duty ≤ 512 * 100 :=
          Nat.mul_le_mul hp hd
      _ = 51200 := by norm_num
  unfold specHighCycles UINT32_MOD
  rw [Nat.mod_eq_of_lt (by omega)]

lemma flexio_pwm_upperValue_eq {clockFreq freq_Hz duty : ℕ}
    (hmin : clockFreq / 512 < freq_Hz) (hclk : clockFreq < 2 ^ 31)
    (hd : duty ≤ 100) :
    flexio_pwm_upperValue clockFreq freq_Hz duty
      = (specLowCycles clockFreq freq_Hz duty % (2 ^ 32 : ℤ)).toNat := by
  unfold flexio_pwm_upperValue
  rw [flexio_pwm_sum_eq_specPeriod hclk, flexio_pwm_lowerValue_eq hmin hclk hd]
  have hp := specPeriod_le_512 hmin
  have hh := specHighCycles_le hd hmin
  unfold specLowCycles UINT32_MOD
  have h32 : (2 ^ 32 : ℤ) = 4294967296 := by norm_num
  rw [h32]
  omega

lemma flexio_pwm_timerCompare_eq {clockFreq freq_Hz duty : ℕ}
    (hmin : clockFreq / 512 < freq_Hz) (hclk : clockFreq < 2 ^ 31)
    (hd : duty ≤ 100) :
    flexio_pwm_timerCompare clockFreq freq_Hz duty
      = specCompare clockFreq freq_Hz duty := by
  unfold flexio_pwm_timerCompare specCompare
  rw [flexio_pwm_upperValue_eq hmin hclk hd, flexio_pwm_lowerValue_eq hmin hclk hd]

lemma shiftLeft8_lor_eq_add {a b : ℕ} (hb : b < 256) :
    (a <<< 8) ||| b = a * 256 + b := by
  have hb' : b < 2 ^ 8 := by simpa using hb
  calc (a <<< 8) ||| b = a * 2 ^ 8 ||| b := by rw [Nat.shiftLeft_eq]
    _ = 2 ^ 8 * a ||| b := by rw [Nat.mul_comm]
    _ = 2 ^ 8 * a + b := (Nat.mul_add_lt_is_or hb' a).symm
    _ = a * 256 + b := by ring

/-! ### Structure of a completed `flexio_pwm_init` call -/

lemma flexio_pwm_init_success {clockFreq freq_Hz duty : ℕ} (s : SysState)
    (hmax : freq_Hz < clockFreq / 2) (hmin : clockFreq / 512 < freq_Hz)
    (hd : duty ≤ 100) :
    ∃ cfg : flexio_timer_config_t,
      flexio_pwm_init clockFreq freq_Hz duty s = flexio_pwm_write s duty cfg
      ∧ cfg.timerCompare = flexio_pwm_timerCompare clockFreq freq_Hz duty
      ∧ cfg.timerMode = (if 0 < duty ∧ duty < 100 then
          flexio_timer_mode_t.kFLEXIO_TimerModeDual8BitPWM
        else flexio_timer_mode_t.kFLEXIO_TimerModeDisabled)
      ∧ cfg.pinPolarity = (if duty = 100 then
          flexio_pin_polarity_t.kFLEXIO_PinActiveLow
        else flexio_pin_polarity_t.kFLEXIO_PinActiveHigh) := by
  unfold flexio_pwm_init
  rw [if_pos ⟨hmax, hmin⟩]
  by_cases h1 : 0 < duty ∧ duty < 100
  · refine ⟨_, by rw [if_pos h1], rfl, ?_, ?_⟩
    · rw [if_pos h1]
    · rw [if_neg (by omega : ¬duty = 100)]
      rfl
  · rw [if_neg h1]
    by_cases h2 : duty = 100
    · refine ⟨_, by rw [if_pos h2], rfl, ?_, ?_⟩
      · rw [if_neg h1]
        rfl
      · rw [if_pos h2]
    · have h0 : duty = 0 := by omega
      rw [if_neg h2, if_pos h0]
      refine ⟨_, rfl, rfl, ?_, ?_⟩
      · rw [if_neg h1]
        rfl
      · rw [if_neg h2]

lemma flexio_pwm_write_proj (s : SysState) (duty : ℕ)
    (cfg : flexio_timer_config_t) :
    (flexio_pwm_write s duty cfg).map
        (fun r => (r.2.1.flexio.timerCfg DEMO_FLEXIO_TIMER_CH, r.1, r.2.2))
      = some (cfg, status_t.kStatus_Success,
          [WriteEvent.timerConfigWrite DEMO_FLEXIO_TIMER_CH cfg]) := by
  simp [flexio_pwm_write, FLEXIO_SetTimerConfig]

lemma FLEXIO_SetTimerConfig_idem (base : FLEXIO_Type) (index : ℕ)
    (cfg : flexio_timer_config_t) :
    FLEXIO_SetTimerConfig (FLEXIO_SetTimerConfig base index cfg) index cfg
      = FLEXIO_SetTimerConfig base index cfg := by
  unfold FLEXIO_SetTimerConfig
  ext : 1 <;> simp [Function.update_idem]

lemma flexio_pwm_write_idem {s : SysState} {duty : ℕ}
    {cfg : flexio_timer_config_t} {st : status_t} {s₁ : SysState}
    {ev : List WriteEvent}
    (h : flexio_pwm_write s duty cfg = some (st, s₁, ev)) :
    flexio_pwm_write s₁ duty cfg = some (st, s₁, ev) := by
  unfold flexio_pwm_write at h
  simp only [Option.some.injEq, Prod.mk.injEq] at h
  obtain ⟨hst, hs₁, hev⟩ := h
  subst hst hev
  unfold flexio_pwm_write
  simp only [Option.some.injEq, Prod.mk.injEq]
  refine ⟨trivial, ?_, trivial⟩
  rw [← hs₁]
  ext : 1
  · simp [FLEXIO_SetTimerConfig_idem]
  · simp [Function.update_idem]

/-- C1: for every `freq_Hz` satisfying the frequency precondition and every
`duty ∈ [0,100]` (with the physical bound `clockFreq < 2^31` so that the
`uint32_t` doubling cannot wrap), `flexio_pwm_init` computes the period as
the round-half-up quotient `(clockFreq*2/freq_Hz + 1)/2`, computes
`highCycles = period*duty/100` with integer truncation, computes
`lowCycles = period - highCycles - 2` (as the `uint32_t` value of that
difference), and stores `(lowCycles << 8) | highCycles` in the
`timerCompare` field written to the timer channel; in particular for
`clockFreq = 4800000`, `freq_Hz = 100000`, `duty = 50` the packed compare
value is 5656. -/
theorem C1_compare_packing (clockFreq freq_Hz duty : ℕ) (s : SysState)
    (hmin : clockFreq / 512 < freq_Hz) (hmax : freq_Hz < clockFreq / 2)
    (hclk : clockFreq < 2 ^ 31) (hduty : duty ≤ 100) :
    flexio_pwm_sum clockFreq freq_Hz = specPeriod clockFreq freq_Hz
    ∧ flexio_pwm_lowerValue clockFreq freq_Hz duty
        = specHighCycles clockFreq freq_Hz duty
    ∧ flexio_pwm_upperValue clockFreq freq_Hz duty
        = (specLowCycles clockFreq freq_Hz duty % (2 ^ 32 : ℤ)).toNat
    ∧ (flexio_pwm_init clockFreq freq_Hz duty s).map
          (fun r => ((r.2.1.flexio.timerCfg DEMO_FLEXIO_TIMER_CH).timerCompare, r.1))
        = some (specCompare clockFreq freq_Hz duty, status_t.kStatus_Success)
    ∧ (flexio_pwm_init 4800000 100000 50 s).map
          (fun r => ((r.2.1.flexio.timerCfg DEMO_FLEXIO_TIMER_CH).timerCompare, r.1))
        = some (5656, status_t.kStatus_Success) := by
  refine ⟨flexio_pwm_sum_eq_specPeriod hclk,
    flexio_pwm_lowerValue_eq hmin hclk hduty,
    flexio_pwm_upperValue_eq hmin hclk hduty, ?_, ?_⟩
  · obtain ⟨cfg, heq, hcmp, -, -⟩ := flexio_pwm_init_success s hmax hmin hduty
    rw [heq]
    simp only [flexio_pwm_write, FLEXIO_SetTimerConfig, Option.map_some',
      Function.update_same]
    rw [hcmp, flexio_pwm_timerCompare_eq hmin hclk hduty]
  · obtain ⟨cfg, heq, hcmp, -, -⟩ :=
      @flexio_pwm_init_success 4800000 100000 50 s (by norm_num) (by norm_num)
        (by norm_num)
    rw [heq]
    simp only [flexio_pwm_write, FLEXIO_SetTimerConfig, Option.map_some',
      Function.update_same]
    rw [hcmp]
    norm_num [show flexio_pwm_timerCompare 4800000 100000 50 = 5656 from by decide]

/-- C1 witness: the theorem applied at the concrete demo scenario. -/
theorem C1_compare_packing_witness :
    ((4800000 : ℕ) / 512 < 100000 ∧ (100000 : ℕ) < 4800000 / 2
      ∧ (4800000 : ℕ) < 2 ^ 31 ∧ (50 : ℕ) ≤ 100)
    ∧ (flexio_pwm_init 4800000 100000 50 initState).map
          (fun r => ((r.2.1.flexio.timerCfg DEMO_FLEXIO_TIMER_CH).timerCompare, r.1))
        = some (specCompare 4800000 100000 50, status_t.kStatus_Success) :=
  ⟨by norm_num,
   (C1_compare_packing 4800000 100000 50 initState (by norm_num) (by norm_num)
      (by norm_num) (by norm_num)).2.2.2.1⟩

/-- C2 counterexample: at `clockFreq = 4800000`, `freq_Hz = 98000`
(valid: `9375 < 98000 < 2400000`), `duty = 30`, the period is
`round(9600000/98000) = 49`, so round-to-nearest of `period*duty/100 =
14.7` is 15; but the low byte of the packed compare value the code writes
decodes to 14 (integer truncation), refuting the claimed
`highCycles = round(period*duty/100)`. -/
theorem C2_round_counterexample :
    (flexio_pwm_init 4800000 98000 30 initState).map
        (fun r => ((r.2.1.flexio.timerCfg DEMO_FLEXIO_TIMER_CH).timerMode,
                   (r.2.1.flexio.timerCfg DEMO_FLEXIO_TIMER_CH).timerCompare % 256))
      = some (flexio_timer_mode_t.kFLEXIO_TimerModeDual8BitPWM, 14)
    ∧ specPeriod 4800000 98000 = 49
    ∧ (2 * (specPeriod 4800000 98000 * 30) / 100 + 1) / 2 = 15
    ∧ (14 : ℕ) ≠ 15 := by
  refine ⟨by decide, by decide, by decide, by decide⟩

/-- C2 (amended): for all valid `freq_Hz` and `duty ∈ [1,99]`,
`flexio_pwm_init` sets the timer mode to dual-8-bit-PWM, and whenever the
two 8-bit halves fit (`highCycles < 256` and `highCycles + 2 ≤ period`)
the packed compare value decodes to `highCycles = period*duty/100` with
integer truncation (not round-to-nearest) in the low byte and
`lowCycles = period - highCycles - 2` in the upper byte, where
`period = round(clockFreq/freq_Hz)` with round-half-up. -/
theorem C2_decode_truncation (clockFreq freq_Hz duty : ℕ) (s : SysState)
    (hmin : clockFreq / 512 < freq_Hz) (hmax : freq_Hz < clockFreq / 2)
    (hclk : clockFreq < 2 ^ 31) (h1 : 1 ≤ duty) (h99 : duty ≤ 99)
    (hfit : specHighCycles clockFreq freq_Hz duty < 256)
    (hroom : specHighCycles clockFreq freq_Hz duty + 2 ≤ specPeriod clockFreq freq_Hz) :
    (flexio_pwm_init clockFreq freq_Hz duty s).map
        (fun r => ((r.2.1.flexio.timerCfg DEMO_FLEXIO_TIMER_CH).timerMode,
                   (r.2.1.flexio.timerCfg DEMO_FLEXIO_TIMER_CH).timerCompare % 256,
                   (r.2.1.flexio.timerCfg DEMO_FLEXIO_TIMER_CH).timerCompare / 256))
      = some (flexio_timer_mode_t.kFLEXIO_TimerModeDual8BitPWM,
          specHighCycles clockFreq freq_Hz duty,
          specPeriod clockFreq freq_Hz - specHighCycles clockFreq freq_Hz duty - 2) := by
  have hduty : duty ≤ 100 := by omega
  obtain ⟨cfg, heq, hcmp, hmode, -⟩ := flexio_pwm_init_success s hmax hmin hduty
  rw [heq]
  simp only [flexio_pwm_write, FLEXIO_SetTimerConfig, Option.map_some',
    Function.update_same]
  rw [hcmp, flexio_pwm_timerCompare_eq hmin hclk hduty, hmode,
    if_pos (by omega : 0 < duty ∧ duty < 100)]
  have hp := specPeriod_le_512 hmin
  have h32 : (2 ^ 32 : ℤ) = 4294967296 := by norm_num
  have hLnat : (specLowCycles clockFreq freq_Hz duty % (2 ^ 32 : ℤ)).toNat
      = specPeriod clockFreq freq_Hz - specHighCycles clockFreq freq_Hz duty - 2 := by
    unfold specLowCycles
    rw [h32]
    omega
  have hcompare : specCompare clockFreq freq_Hz duty
      = (specPeriod clockFreq freq_Hz - specHighCycles clockFreq freq_Hz duty - 2) * 256
        + specHighCycles clockFreq freq_Hz duty := by
    unfold specCompare
    rw [hLnat, Nat.mod_eq_of_lt, shiftLeft8_lor_eq_add hfit]
    rw [Nat.shiftLeft_eq]
    have h8 : (2 : ℕ) ^ 8 = 256 := by norm_num
    rw [h8]
    unfold UINT32_MOD
    omega
  rw [hcompare]
  simp only [Option.some.injEq, Prod.mk.injEq]
  refine ⟨trivial, ?_, ?_⟩ <;> omega

/-- C2 witness: the amended theorem applied at the concrete demo
scenario (`period = 48`, `highCycles = 24`, `lowCycles = 22`). -/
theorem C2_decode_truncation_witness :
    ((4800000 : ℕ) / 512 < 100000 ∧ (100000 : ℕ) < 4800000 / 2
      ∧ (4800000 : ℕ) < 2 ^ 31 ∧ (1 : ℕ) ≤ 50 ∧ (50 : ℕ) ≤ 99
      ∧ specHighCycles 4800000 100000 50 < 256
      ∧ specHighCycles 4800000 100000 50 + 2 ≤ specPeriod 4800000 100000)
    ∧ (flexio_pwm_init 4800000 100000 50 initState).map
        (fun r => ((r.2.1.flexio.timerCfg DEMO_FLEXIO_TIMER_CH).timerMode,
                   (r.2.1.flexio.timerCfg DEMO_FLEXIO_TIMER_CH).timerCompare % 256,
                   (r.2.1.flexio.timerCfg DEMO_FLEXIO_TIMER_CH).timerCompare / 256))
      = some (flexio_timer_mode_t.kFLEXIO_TimerModeDual8BitPWM,
          specHighCycles 4800000 100000 50,
          specPeriod 4800000 100000 - specHighCycles 4800000 100000 50 - 2) :=
  ⟨by refine ⟨by norm_num, by norm_num, by norm_num, by norm_num, by norm_num,
      by decide, by decide⟩,
   C2_decode_truncation 4800000 100000 50 initState (by norm_num) (by norm_num)
      (by norm_num) (by norm_num) (by norm_num) (by decide) (by decide)⟩

/-- C3: for every valid `freq_Hz`: a duty strictly between 0 and 100
selects dual-8-bit-PWM mode with active-high pin polarity; duty 100
leaves the mode disabled with active-low polarity; duty 0 leaves the mode
disabled with active-high polarity; and neither duty 0 nor duty 100 ever
selects dual-8-bit-PWM mode. -/
theorem C3_duty_boundary_modes (clockFreq freq_Hz : ℕ) (s : SysState)
    (hmin : clockFreq / 512 < freq_Hz) (hmax : freq_Hz < clockFreq / 2) :
    (∀ duty, 0 < duty → duty < 100 →
      (flexio_pwm_init clockFreq freq_Hz duty s).map
          (fun r => ((r.2.1.flexio.timerCfg DEMO_FLEXIO_TIMER_CH).timerMode,
                     (r.2.1.flexio.timerCfg DEMO_FLEXIO_TIMER_CH).pinPolarity))
        = some (flexio_timer_mode_t.kFLEXIO_TimerModeDual8BitPWM,
            flexio_pin_polarity_t.kFLEXIO_PinActiveHigh))
    ∧ ((flexio_pwm_init clockFreq freq_Hz 100 s).map
          (fun r => ((r.2.1.flexio.timerCfg DEMO_FLEXIO_TIMER_CH).timerMode,
                     (r.2.1.flexio.timerCfg DEMO_FLEXIO_TIMER_CH).pinPolarity))
        = some (flexio_timer_mode_t.kFLEXIO_TimerModeDisabled,
            flexio_pin_polarity_t.kFLEXIO_PinActiveLow))
    ∧ ((flexio_pwm_init clockFreq freq_Hz 0 s).map
          (fun r => ((r.2.1.flexio.timerCfg DEMO_FLEXIO_TIMER_CH).timerMode,
                     (r.2.1.flexio.timerCfg DEMO_FLEXIO_TIMER_CH).pinPolarity))
        = some (flexio_timer_mode_t.kFLEXIO_TimerModeDisabled,
            flexio_pin_polarity_t.kFLEXIO_PinActiveHigh))
    ∧ (∀ duty, duty = 0 ∨ duty = 100 →
        (flexio_pwm_init clockFreq freq_Hz duty s).map
            (fun r => (r.2.1.flexio.timerCfg DEMO_FLEXIO_TIMER_CH).timerMode)
          ≠ some flexio_timer_mode_t.kFLEXIO_TimerModeDual8BitPWM) := by
  have hproj : ∀ duty : ℕ, duty ≤ 100 →
      (flexio_pwm_init clockFreq freq_Hz duty s).map
          (fun r => ((r.2.1.flexio.timerCfg DEMO_FLEXIO_TIMER_CH).timerMode,
                     (r.2.1.flexio.timerCfg DEMO_FLEXIO_TIMER_CH).pinPolarity))
        = some ((if 0 < duty ∧ duty < 100 then
              flexio_timer_mode_t.kFLEXIO_TimerModeDual8BitPWM
            else flexio_timer_mode_t.kFLEXIO_TimerModeDisabled),
            (if duty = 100 then flexio_pin_polarity_t.kFLEXIO_PinActiveLow
            else flexio_pin_polarity_t.kFLEXIO_PinActiveHigh)) := by
    intro duty hd
    obtain ⟨cfg, heq, -, hmode, hpol⟩ := flexio_pwm_init_success s hmax hmin hd
    rw [heq]
    simp only [flexio_pwm_write, FLEXIO_SetTimerConfig, Option.map_some',
      Function.update_same]
    rw [hmode, hpol]
  refine ⟨?_, ?_, ?_, ?_⟩
  · intro duty h0 h100
    rw [hproj duty (by omega), if_pos ⟨h0, h100⟩, if_neg (by omega)]
  · rw [hproj 100 (by omega), if_neg (by omega), if_pos rfl]
  · rw [hproj 0 (by omega), if_neg (by omega), if_neg (by omega)]
  · intro duty hd
    have h : (flexio_pwm_init clockFreq freq_Hz duty s).map
        (fun r => ((r.2.1.flexio.timerCfg DEMO_FLEXIO_TIMER_CH).timerMode,
                   (r.2.1.flexio.timerCfg DEMO_FLEXIO_TIMER_CH).pinPolarity))
        = some (flexio_timer_mode_t.kFLEXIO_TimerModeDisabled,
            (if duty = 100 then flexio_pin_polarity_t.kFLEXIO_PinActiveLow
            else flexio_pin_polarity_t.kFLEXIO_PinActiveHigh)) := by
      rw [hproj duty (by omega), if_neg (by omega)]
    intro hcontra
    rcases hmap : flexio_pwm_init clockFreq freq_Hz duty s with - | r
    · rw [hmap] at hcontra
      simp at hcontra
    · rw [hmap] at h hcontra
      simp only [Option.map_some', Option.some.injEq, Prod.mk.injEq] at h hcontra
      rw [hcontra] at h
      exact absurd h.1 (by simp)

/-- C3 witness: the theorem applied at the demo frequency, with the
interior-duty clause instantiated at duty 50. -/
theorem C3_duty_boundary_modes_witness :
    ((4800000 : ℕ) / 512 < 100000 ∧ (100000 : ℕ) < 4800000 / 2)
    ∧ (flexio_pwm_init 4800000 100000 50 initState).map
          (fun r => ((r.2.1.flexio.timerCfg DEMO_FLEXIO_TIMER_CH).timerMode,
                     (r.2.1.flexio.timerCfg DEMO_FLEXIO_TIMER_CH).pinPolarity))
        = some (flexio_timer_mode_t.kFLEXIO_TimerModeDual8BitPWM,
            flexio_pin_polarity_t.kFLEXIO_PinActiveHigh) :=
  ⟨by norm_num,
   (C3_duty_boundary_modes 4800000 100000 initState (by norm_num)
      (by norm_num)).1 50 (by norm_num) (by norm_num)⟩

/-- C4: for every valid `freq_Hz` and every `duty > 100`,
`flexio_pwm_init` returns `kStatus_Fail`, performs no hardware write
(the emitted write list is empty and the state, registers included, is
returned unchanged), and leaves every duty-cycle cache entry unchanged. -/
theorem C4_invalid_duty_no_effect (clockFreq freq_Hz duty : ℕ) (s : SysState)
    (hmin : clockFreq / 512 < freq_Hz) (hmax : freq_Hz < clockFreq / 2)
    (hd : 100 < duty) :
    flexio_pwm_init clockFreq freq_Hz duty s
        = some (status_t.kStatus_Fail, s, [])
    ∧ ∀ ch, (flexio_pwm_init clockFreq freq_Hz duty s).map
          (fun r => r.2.1.s_flexioGetPwmDutyCycle ch)
        = some (s.s_flexioGetPwmDutyCycle ch) := by
  have h : flexio_pwm_init clockFreq freq_Hz duty s
      = some (status_t.kStatus_Fail, s, []) := by
    unfold flexio_pwm_init
    rw [if_pos ⟨hmax, hmin⟩, if_neg (by omega), if_neg (by omega),
      if_neg (by omega)]
  exact ⟨h, fun ch => by rw [h]; rfl⟩

/-- C4 witness: the theorem applied at the concrete scenario
`duty = 101` from the spec. -/
theorem C4_invalid_duty_no_effect_witness :
    ((4800000 : ℕ) / 512 < 100000 ∧ (100000 : ℕ) < 4800000 / 2
      ∧ (100 : ℕ) < 101)
    ∧ flexio_pwm_init 4800000 100000 101 initState
        = some (status_t.kStatus_Fail, initState, [])
    ∧ (flexio_pwm_init 4800000 100000 101 initState).map
          (fun r => r.2.1.s_flexioGetPwmDutyCycle 0)
        = some (initState.s_flexioGetPwmDutyCycle 0) :=
  ⟨by norm_num,
   (C4_invalid_duty_no_effect 4800000 100000 101 initState (by norm_num)
      (by norm_num) (by norm_num)).1,
   (C4_invalid_duty_no_effect 4800000 100000 101 initState (by norm_num)
      (by norm_num) (by norm_num)).2 0⟩

/-- The state reached by driving the output to idle-high
(`FLEXIO_SetPwmOutputToIdle(base, 0, true)`, which configures pin
polarity active-low on timer channel 0) while the raw pin-state bit of
pin 0 reads 1. -/
def probeBugState : SysState :=
  (FLEXIO_SetPwmOutputToIdle
    { initState with flexio := { initState.flexio with PIN := 1 } } 0 true).1

/-- C5: evidence that `PWM_GetPwmOutputState` does not return the XOR of
the pin-state bit with the polarity bit.  In `probeBugState` the pin bit
of pin 0 is 1 and the polarity of timer channel 0 is active-low (polarity
bit 1), so the claimed bit-XOR is 0 and the probe should report Low; but
the code XORs `PIN & (1 << channel)` (bit at position `channel`) against
`TIMCTL & FLEXIO_TIMCTL_PINPOL_MASK` (bit at position 7) without aligning
them, which is nonzero here, so it returns `kFLEXIO_PwmHigh`. -/
theorem C5_probe_not_bitwise_xor :
    PWM_GetPwmOutputState probeBugState.flexio 0 0
        = flexio_pwm_output_state.kFLEXIO_PwmHigh
    ∧ (probeBugState.flexio.timerCfg 0).pinPolarity
        = flexio_pin_polarity_t.kFLEXIO_PinActiveLow
    ∧ ((probeBugState.flexio.PIN >>> 0) &&& 1)
        ^^^ flexio_pin_polarity_val ((probeBugState.flexio.timerCfg 0).pinPolarity)
      = 0 := by
  refine ⟨by decide, by decide, by decide⟩

/-- C6: spec-modelled main behaviour.  If the boot-time peripheral
initialization (modelled from the spec as one `flexio_pwm_init` call at
the fixed 100 kHz demonstration frequency) completes with state `s₀`,
then that configuration call is the one performed, and every number of
iterations of `main`'s `while(1){}` loop leaves the process alive (never
returns) in exactly the state `s₀` — no further interaction. -/
theorem C6_one_time_config_then_idle (clockFreq duty : ℕ) (s s₀ : SysState)
    (h : BOARD_InitBootPeripherals clockFreq duty s = some s₀) :
    DEMO_FLEXIO_FREQUENCY = 100000
    ∧ (∃ st ev, flexio_pwm_init clockFreq 100000 duty s = some (st, s₀, ev))
    ∧ ∀ n, main_run clockFreq duty s n = some s₀ := by
  refine ⟨rfl, ?_, ?_⟩
  · unfold BOARD_InitBootPeripherals at h
    rcases hi : flexio_pwm_init clockFreq DEMO_FLEXIO_FREQUENCY duty s with - | r
    · rw [hi] at h
      simp at h
    · rw [hi] at h
      simp only [Option.map_some', Option.some.injEq] at h
      exact ⟨r.1, r.2.2, by rw [← h]; exact hi⟩
  · intro n
    induction n with
    | zero => exact h
    | succ n ih => simp [main_run, ih, main_loop_step]

/-- The concrete boot result used to witness C6. -/
def demoBoot : Option SysState := BOARD_InitBootPeripherals 4800000 50 initState

/-- C6 witness: at `clockFreq = 4800000`, `duty = 50`, boot succeeds and
three idle-loop iterations leave the state unchanged. -/
theorem C6_one_time_config_then_idle_witness :
    main_run 4800000 50 initState 3 = demoBoot ∧ demoBoot.isSome = true := by
  obtain ⟨s₀, h⟩ : ∃ x, demoBoot = some x := ⟨_, rfl⟩
  have hmain :=
    (C6_one_time_config_then_idle 4800000 50 initState s₀ h).2.2 3
  exact ⟨hmain.trans h.symm, by rw [h]; rfl⟩

/-- C7: `FLEXIO_SetPwmOutputToIdle` on any valid channel disables the
timer mode, zeroes the channel's compare register, sets pin polarity to
active-low when `idleStatus` is true and active-high otherwise, resets
the duty-cycle cache entry of the channel to 0, and performs exactly two
hardware writes in order: first the `TIMCMP[ch] = 0` clear, then the
configuration write carrying the polarity. -/
theorem C7_set_idle_semantics (s : SysState) (timerChannel : ℕ)
    (idleStatus : Bool) (_hch : timerChannel < FLEXIO_TIMER_CHANNELS) :
    ((FLEXIO_SetPwmOutputToIdle s timerChannel idleStatus).1.flexio.timerCfg
        timerChannel).timerMode = flexio_timer_mode_t.kFLEXIO_TimerModeDisabled
    ∧ ((FLEXIO_SetPwmOutputToIdle s timerChannel idleStatus).1.flexio.timerCfg
        timerChannel).pinPolarity
      = (if idleStatus then flexio_pin_polarity_t.kFLEXIO_PinActiveLow
        else flexio_pin_polarity_t.kFLEXIO_PinActiveHigh)
    ∧ (FLEXIO_SetPwmOutputToIdle s timerChannel idleStatus).1.flexio.TIMCMP
        timerChannel = 0
    ∧ (FLEXIO_SetPwmOutputToIdle s timerChannel
        idleStatus).1.s_flexioGetPwmDutyCycle timerChannel = 0
    ∧ (FLEXIO_SetPwmOutputToIdle s timerChannel idleStatus).2
        = [WriteEvent.timcmpWrite timerChannel 0,
           WriteEvent.timerConfigWrite timerChannel
             (FLEXIO_SetPwmOutputToIdle_config idleStatus)]
    ∧ (FLEXIO_SetPwmOutputToIdle_config idleStatus).timerMode
        = flexio_timer_mode_t.kFLEXIO_TimerModeDisabled
    ∧ (FLEXIO_SetPwmOutputToIdle_config idleStatus).timerCompare = 0
    ∧ (FLEXIO_SetPwmOutputToIdle_config idleStatus).pinPolarity
        = (if idleStatus then flexio_pin_polarity_t.kFLEXIO_PinActiveLow
          else flexio_pin_polarity_t.kFLEXIO_PinActiveHigh) := by
  refine ⟨?_, ?_, ?_, ?_, rfl, rfl, rfl, rfl⟩
  · simp [FLEXIO_SetPwmOutputToIdle, FLEXIO_SetTimerConfig,
      Function.update_same, FLEXIO_SetPwmOutputToIdle_config]
  · simp [FLEXIO_SetPwmOutputToIdle, FLEXIO_SetTimerConfig,
      Function.update_same, FLEXIO_SetPwmOutputToIdle_config]
  · simp [FLEXIO_SetPwmOutputToIdle, FLEXIO_SetTimerConfig,
      Function.update_same, FLEXIO_SetPwmOutputToIdle_config,
      UINT16_MOD]
  · simp [FLEXIO_SetPwmOutputToIdle, Function.update_same]

/-- C7 witness: the theorem applied at channel 0 with idle-high. -/
theorem C7_set_idle_semantics_witness :
    ((0 : ℕ) < FLEXIO_TIMER_CHANNELS)
    ∧ ((FLEXIO_SetPwmOutputToIdle initState 0 true).1.flexio.timerCfg
        0).timerMode = flexio_timer_mode_t.kFLEXIO_TimerModeDisabled
    ∧ ((FLEXIO_SetPwmOutputToIdle initState 0 true).1.flexio.timerCfg
        0).pinPolarity = flexio_pin_polarity_t.kFLEXIO_PinActiveLow
    ∧ (FLEXIO_SetPwmOutputToIdle initState 0
        true).1.s_flexioGetPwmDutyCycle 0 = 0 := by
  have h := C7_set_idle_semantics initState 0 true (by decide)
  refine ⟨by decide, h.1, ?_, h.2.2.2.1⟩
  have h2 := h.2.1
  simpa using h2

/-- C8: `flexio_pwm_init` is idempotent.  If a call completes with status
`st`, state `s₁` and writes `ev`, then repeating the call with identical
arguments (same externally supplied clock frequency) from `s₁` completes
with the same status, reproduces exactly the state `s₁` (identical
register contents and identical duty-cycle cache), and performs the same
writes. -/
theorem C8_configure_idempotent (clockFreq freq_Hz duty : ℕ) (s : SysState)
    (st : status_t) (s₁ : SysState) (ev : List WriteEvent)
    (h : flexio_pwm_init clockFreq freq_Hz duty s = some (st, s₁, ev)) :
    flexio_pwm_init clockFreq freq_Hz duty s₁ = some (st, s₁, ev) := by
  unfold flexio_pwm_init at h ⊢
  by_cases hpass : freq_Hz < clockFreq / 2 ∧ clockFreq / 512 < freq_Hz
  · rw [if_pos hpass] at h ⊢
    by_cases h1 : 0 < duty ∧ duty < 100
    · rw [if_pos h1] at h ⊢
      exact flexio_pwm_write_idem h
    · rw [if_neg h1] at h ⊢
      by_cases h2 : duty = 100
      · rw [if_pos h2] at h ⊢
        exact flexio_pwm_write_idem h
      · rw [if_neg h2] at h ⊢
        by_cases h0 : duty = 0
        · rw [if_pos h0] at h ⊢
          exact flexio_pwm_write_idem h
        · rw [if_neg h0] at h ⊢
          simp only [Option.some.injEq, Prod.mk.injEq] at h
          obtain ⟨hst, hs₁, hev⟩ := h
          rw [← hst, ← hs₁, ← hev]
  · rw [if_neg hpass] at h
    exact absurd h (by simp)

/-- C8 witness: running the configurator twice at the demo arguments from
the startup state gives the same result as running it once. -/
theorem C8_configure_idempotent_witness :
    (flexio_pwm_init 4800000 100000 50 initState).bind
        (fun r => flexio_pwm_init 4800000 100000 50 r.2.1)
      = flexio_pwm_init 4800000 100000 50 initState := by
  obtain ⟨st, s₁, ev, h⟩ :
      ∃ st s₁ ev, flexio_pwm_init 4800000 100000 50 initState
        = some (st, s₁, ev) := ⟨_, _, _, rfl⟩
  rw [h]
  exact C8_configure_idempotent 4800000 100000 50 initState st s₁ ev h

/-- C9: the frequency precondition is checked by the leading assertion
with strict inequalities: `flexio_pwm_init` proceeds past the assertion
(returns a result rather than aborting) exactly when
`clockFreq/512 < freq_Hz < clockFreq/2`. -/
theorem C9_assert_strict_bounds (clockFreq freq_Hz duty : ℕ) (s : SysState) :
    (flexio_pwm_init clockFreq freq_Hz duty s).isSome = true
      ↔ clockFreq / 512 < freq_Hz ∧ freq_Hz < clockFreq / 2 := by
  unfold flexio_pwm_init
  by_cases hpass : freq_Hz < clockFreq / 2 ∧ clockFreq / 512 < freq_Hz
  · rw [if_pos hpass]
    constructor
    · intro _
      exact ⟨hpass.2, hpass.1⟩
    · intro _
      split_ifs <;> simp [flexio_pwm_write]
  · rw [if_neg hpass]
    simp only [Option.isSome_none, Bool.false_eq_true, false_iff]
    intro hcontra
    exact hpass ⟨hcontra.2, hcontra.1⟩

/-- C10: a completed in-range `flexio_pwm_init` call succeeds, emits
hardware writes targeting timer channel 0 only (`DEMO_FLEXIO_TIMER_CH`),
and leaves the control/compare registers and the duty-cycle cache entries
of every other channel, as well as the pin-state register, unchanged. -/
theorem C10_targets_channel_zero_only (clockFreq freq_Hz duty : ℕ)
    (s : SysState) (hmin : clockFreq / 512 < freq_Hz)
    (hmax : freq_Hz < clockFreq / 2) (hd : duty ≤ 100) :
    DEMO_FLEXIO_TIMER_CH = 0
    ∧ (flexio_pwm_init clockFreq freq_Hz duty s).map (fun r => r.1)
        = some status_t.kStatus_Success
    ∧ (flexio_pwm_init clockFreq freq_Hz duty s).map
          (fun r => r.2.2.map writeEventChannel) = some [0]
    ∧ (∀ ch, ch ≠ 0 →
        (flexio_pwm_init clockFreq freq_Hz duty s).map
            (fun r => (r.2.1.flexio.timerCfg ch, r.2.1.flexio.TIMCMP ch,
                       r.2.1.s_flexioGetPwmDutyCycle ch))
          = some (s.flexio.timerCfg ch, s.flexio.TIMCMP ch,
              s.s_flexioGetPwmDutyCycle ch))
    ∧ (flexio_pwm_init clockFreq freq_Hz duty s).map
          (fun r => r.2.1.flexio.PIN) = some s.flexio.PIN := by
  obtain ⟨cfg, heq, -, -, -⟩ := flexio_pwm_init_success s hmax hmin hd
  rw [heq]
  refine ⟨rfl, rfl, rfl, ?_, rfl⟩
  intro ch hch
  simp only [flexio_pwm_write, FLEXIO_SetTimerConfig, Option.map_some',
    Option.some.injEq, Prod.mk.injEq]
  have hne : ch ≠ DEMO_FLEXIO_TIMER_CH := by
    rw [DEMO_FLEXIO_TIMER_CH]
    exact hch
  exact ⟨Function.update_noteq hne _ _, Function.update_noteq hne _ _,
    Function.update_noteq hne _ _⟩

/-- C10 witness: the theorem applied at the demo arguments; cache entry
and registers of channel 5 are untouched. -/
theorem C10_targets_channel_zero_only_witness :
    ((4800000 : ℕ) / 512 < 100000 ∧ (100000 : ℕ) < 4800000 / 2
      ∧ (50 : ℕ) ≤ 100)
    ∧ (flexio_pwm_init 4800000 100000 50 initState).map
          (fun r => r.2.2.map writeEventChannel) = some [0]
    ∧ (flexio_pwm_init 4800000 100000 50 initState).map
          (fun r => (r.2.1.flexio.timerCfg 5, r.2.1.flexio.TIMCMP 5,
                     r.2.1.s_flexioGetPwmDutyCycle 5))
        = some (initState.flexio.timerCfg 5, initState.flexio.TIMCMP 5,
            initState.s_flexioGetPwmDutyCycle 5) :=
  ⟨by norm_num,
   (C10_targets_channel_zero_only 4800000 100000 50 initState (by norm_num)
      (by norm_num) (by norm_num)).2.2.1,
   (C10_targets_channel_zero_only 4800000 100000 50 initState (by norm_num)
      (by norm_num) (by norm_num)).2.2.2.1 5 (by norm_num)⟩
